import Mathlib

/-
Verification of the huiswerk personal-finance projection engine
(src/main.py).  The engine's floating-point arithmetic is modelled over
the real numbers: every numpy array of length `period` filled by a
first-order loop is embedded as a recurrence `ℕ → ℝ` together with a
bundle of lists `(List.range period).map f` standing for the returned
arrays.  Python's `x ** y` on floats is modelled by `Real.rpow`; integer
exponents (`** -periods`) by `zpow`.
-/

noncomputable section

open Real

/-- Tiered transfer-duty schedule, src/main.py `calc_transfer_duty`. -/
def calc_transfer_duty (purchase_price : ℝ) : ℝ :=
  if purchase_price ≤ 1000000 then purchase_price * 0.00
  else if purchase_price ≤ 1375000 then (purchase_price - 1000000) * 0.03
  else if purchase_price ≤ 1925000 then (purchase_price - 1375000) * 0.06 + 11250
  else if purchase_price ≤ 2475000 then (purchase_price - 1925000) * 0.08 + 44250
  else if purchase_price ≤ 11000000 then (purchase_price - 2475000) * 0.11 + 88250
  else (purchase_price - 11000000) * 0.13 + 1026000

/-- Branch expression of `calc_transfer_duty` for prices up to 1,000,000. -/
def duty_bracket1 (p : ℝ) : ℝ := p * 0.00

/-- Branch expression of `calc_transfer_duty` for prices up to 1,375,000. -/
def duty_bracket2 (p : ℝ) : ℝ := (p - 1000000) * 0.03

/-- Branch expression of `calc_transfer_duty` for prices up to 1,925,000. -/
def duty_bracket3 (p : ℝ) : ℝ := (p - 1375000) * 0.06 + 11250

/-- Branch expression of `calc_transfer_duty` for prices up to 2,475,000. -/
def duty_bracket4 (p : ℝ) : ℝ := (p - 1925000) * 0.08 + 44250

/-- Branch expression of `calc_transfer_duty` for prices up to 11,000,000. -/
def duty_bracket5 (p : ℝ) : ℝ := (p - 2475000) * 0.11 + 88250

/-- Branch expression of `calc_transfer_duty` for prices above 11,000,000. -/
def duty_bracket6 (p : ℝ) : ℝ := (p - 11000000) * 0.13 + 1026000

/-- Bond registration cost, src/main.py `calc_bond_cost`
(deeds_office_fees = 1020, petty_fees = 1200). -/
def calc_bond_cost (bond : ℝ) : ℝ :=
  (bond - 100000) * 0.01771 + 5750 + 1020 + 1200

/-- Amortized bond payment, src/main.py `calc_bond_payment`:
`(interst_rate*bond)/(1-(1+interst_rate)**-periods)`. -/
def calc_bond_payment (bond interst_rate : ℝ) (periods : ℕ) : ℝ :=
  (interst_rate * bond) / (1 - (1 + interst_rate) ^ (-(periods : ℤ)))

/-- The expression `((1+rate/12)**(12/12)-1)` by which src/main.py turns a
yearly interest rate into a monthly one (src/main.py lines 65, 86, 144,
246 all inline this same expression). -/
def monthly_interest_rate (rate : ℝ) : ℝ :=
  (1 + rate / 12) ^ ((12 : ℝ) / 12) - 1

/-- `housevalue` recurrence of `buy`: line 69 and line 82 of src/main.py. -/
def buy_housevalue (price growth : ℝ) : ℕ → ℝ
  | 0 => price
  | m + 1 => buy_housevalue price growth m * (1 + growth) ^ ((1 : ℝ) / 12)

/-- `growth_accum` recurrence of `buy`: index 0 is left at `np.zeros`,
line 83 fills the rest. -/
def buy_growth_accum (price growth : ℝ) : ℕ → ℝ
  | 0 => 0
  | m + 1 =>
      buy_growth_accum price growth m
        + (buy_housevalue price growth (m + 1) - buy_housevalue price growth m)

/-- `expenses` recurrence of `buy`: line 70 and line 84 of src/main.py. -/
def buy_expenses (monthly_expenses inflation : ℝ) : ℕ → ℝ
  | 0 => monthly_expenses
  | m + 1 => buy_expenses monthly_expenses inflation m * (1 + inflation) ^ ((1 : ℝ) / 12)

/-- `expenses_accum` recurrence of `buy`: line 77 and line 89 of src/main.py. -/
def buy_expenses_accum (monthly_expenses inflation : ℝ) : ℕ → ℝ
  | 0 => buy_expenses monthly_expenses inflation 0
  | m + 1 =>
      buy_expenses_accum monthly_expenses inflation m
        + buy_expenses monthly_expenses inflation (m + 1)

/-- `bond` series of `buy`: the one-off month-0 cash-out (line 71) and the
constant amortized payment afterwards (lines 66, 85). -/
def buy_bond (price deposit interest_rate : ℝ) (period : ℕ) : ℕ → ℝ
  | 0 => calc_transfer_duty (price - deposit) + calc_bond_cost (price - deposit) + deposit
  | _ + 1 => calc_bond_payment (price - deposit) (monthly_interest_rate interest_rate) period

/-- `bond_outstanding` recurrence of `buy`: line 72 and line 87 of
src/main.py, with `bond_interest[month]` from line 86 substituted in. -/
def buy_bond_outstanding (price deposit interest_rate : ℝ) (period : ℕ) : ℕ → ℝ
  | 0 => price - deposit
  | m + 1 =>
      buy_bond_outstanding price deposit interest_rate period m
        + buy_bond_outstanding price deposit interest_rate period m
            * monthly_interest_rate interest_rate
        - calc_bond_payment (price - deposit) (monthly_interest_rate interest_rate) period

/-- `bond_interest` recurrence of `buy`: line 73 and line 86 of src/main.py. -/
def buy_bond_interest (price deposit interest_rate : ℝ) (period : ℕ) : ℕ → ℝ
  | 0 => 0
  | m + 1 =>
      buy_bond_outstanding price deposit interest_rate period m
        * monthly_interest_rate interest_rate

/-- `bond_interest_accum` recurrence of `buy`: line 74 and line 91 of
src/main.py. -/
def buy_bond_interest_accum (price deposit interest_rate : ℝ) (period : ℕ) : ℕ → ℝ
  | 0 => 0
  | m + 1 =>
      buy_bond_interest_accum price deposit interest_rate period m
        + buy_bond_interest price deposit interest_rate period (m + 1)

/-- `nett` series of `buy`: line 75 (month 0 subtracts the month-0
expenses) and line 92 (months ≥ 1 do not). -/
def buy_nett (price deposit interest_rate : ℝ) (period : ℕ)
    (growth monthly_expenses inflation : ℝ) : ℕ → ℝ
  | 0 =>
      buy_housevalue price growth 0 - buy_expenses monthly_expenses inflation 0
        - buy_bond_outstanding price deposit interest_rate period 0
  | m + 1 =>
      buy_housevalue price growth (m + 1)
        - buy_bond_outstanding price deposit interest_rate period (m + 1)

/-- The dictionary returned by `buy` (src/main.py lines 94-103): each
series as its recurrence, plus the length `period` of every array. -/
structure BuyData where
  period : ℕ
  month : ℕ → ℕ
  housevalue : ℕ → ℝ
  growth_accum : ℕ → ℝ
  expenses : ℕ → ℝ
  expenses_accum : ℕ → ℝ
  bond : ℕ → ℝ
  bond_interest : ℕ → ℝ
  bond_interest_accum : ℕ → ℝ
  bond_outstanding : ℕ → ℝ
  nett : ℕ → ℝ

/-- The Buy Projector, src/main.py `buy` (lines 32-103).
`month` is `np.arange(period)`. -/
def buy (price deposit interest_rate : ℝ) (period : ℕ)
    (growth monthly_expenses inflation : ℝ) : BuyData where
  period := period
  month := fun m => m
  housevalue := buy_housevalue price growth
  growth_accum := buy_growth_accum price growth
  expenses := buy_expenses monthly_expenses inflation
  expenses_accum := buy_expenses_accum monthly_expenses inflation
  bond := buy_bond price deposit interest_rate period
  bond_interest := buy_bond_interest price deposit interest_rate period
  bond_interest_accum := buy_bond_interest_accum price deposit interest_rate period
  bond_outstanding := buy_bond_outstanding price deposit interest_rate period
  nett := buy_nett price deposit interest_rate period growth monthly_expenses inflation

/-- `rent` recurrence of the Rent Projector: src/main.py lines 131, 138,
140-141.  On a 12-month boundary the just-copied value is stepped up by
`rent[month] += rent[month]*rent_increase`. -/
def rent_rent (start_rent rent_increase : ℝ) : ℕ → ℝ
  | 0 => start_rent
  | m + 1 =>
      if (m + 1) % 12 = 0 then
        rent_rent start_rent rent_increase m + rent_rent start_rent rent_increase m * rent_increase
      else rent_rent start_rent rent_increase m

/-- `rent_accum` recurrence: src/main.py lines 133, 139.  Line 139 adds
`rent[month]` at a point where it still holds the copied value
`rent[month-1]`, before the annual step-up on line 141. -/
def rent_rent_accum (start_rent rent_increase : ℝ) : ℕ → ℝ
  | 0 => rent_rent start_rent rent_increase 0
  | m + 1 => rent_rent_accum start_rent rent_increase m + rent_rent start_rent rent_increase m

/-- `savings` recurrence of the Rent Projector: src/main.py lines 130,
144, 146-150, with `interest[month]` from line 144 substituted in. -/
def rent_savings (start_rent rent_increase savings_interest : ℝ) (buy_data : BuyData) : ℕ → ℝ
  | 0 => buy_data.expenses 0 + buy_data.bond 0 - start_rent
  | m + 1 =>
      rent_savings start_rent rent_increase savings_interest buy_data m
        + rent_savings start_rent rent_increase savings_interest buy_data m
            * monthly_interest_rate savings_interest
        + (buy_data.bond (m + 1) + buy_data.expenses (m + 1))
        - rent_rent start_rent rent_increase (m + 1)

/-- `interest` recurrence of the Rent Projector: src/main.py lines 132, 144. -/
def rent_interest (start_rent rent_increase savings_interest : ℝ) (buy_data : BuyData) :
    ℕ → ℝ
  | 0 => 0
  | m + 1 =>
      rent_savings start_rent rent_increase savings_interest buy_data m
        * monthly_interest_rate savings_interest

/-- `interest_accum` recurrence of the Rent Projector: index 0 is left at
`np.zeros`, line 145 fills the rest. -/
def rent_interest_accum (start_rent rent_increase savings_interest : ℝ) (buy_data : BuyData) :
    ℕ → ℝ
  | 0 => 0
  | m + 1 =>
      rent_interest_accum start_rent rent_increase savings_interest buy_data m
        + rent_interest start_rent rent_increase savings_interest buy_data (m + 1)

/-- The dictionary returned by `rent` (src/main.py line 152). -/
structure RentData where
  period : ℕ
  month : ℕ → ℕ
  savings : ℕ → ℝ
  rent : ℕ → ℝ
  rent_accum : ℕ → ℝ
  interest : ℕ → ℝ
  interest_accum : ℕ → ℝ

/-- The Rent Projector, src/main.py `rent` (lines 105-152).  Its `month`
array and length are taken from `buy_data`. -/
def rent (start_rent rent_increase savings_interest : ℝ) (buy_data : BuyData) : RentData where
  period := buy_data.period
  month := buy_data.month
  savings := rent_savings start_rent rent_increase savings_interest buy_data
  rent := rent_rent start_rent rent_increase
  rent_accum := rent_rent_accum start_rent rent_increase
  interest := rent_interest start_rent rent_increase savings_interest buy_data
  interest_accum := rent_interest_accum start_rent rent_increase savings_interest buy_data

/-- State `(deposit, transfer_duty, bond_cost)` of the affordable-deposit
while-loop of `rent_to_buy` after `k` iterations of its body
(src/main.py lines 178-184): each iteration recomputes the fees at the
current deposit and then adds 1000 to the deposit. -/
def rtb_loopState (price : ℝ) : ℕ → ℝ × ℝ × ℝ
  | 0 => (0, 0, 0)
  | k + 1 =>
      ((rtb_loopState price k).1 + 1000,
        calc_transfer_duty (price - (rtb_loopState price k).1),
        calc_bond_cost (price - (rtb_loopState price k).1))

/-- Guard of the while-loop on src/main.py line 181:
`deposit + transfer_duty + bond_cost < savings`. -/
def rtb_guard (savings : ℝ) (s : ℝ × ℝ × ℝ) : Prop :=
  s.1 + s.2.1 + s.2.2 < savings

/-- The while-loop of src/main.py lines 181-184 exits after finitely many
iterations: the deposit grows by 1000 each iteration while the fees fall
by less, so the guard eventually fails. -/
def rtb_exists_stop (price savings : ℝ) :
    ∃ k : ℕ, ¬ rtb_guard savings (rtb_loopState price k) := by
  have hfst : ∀ k : ℕ, (rtb_loopState price k).1 = 1000 * k := by
    intro k
    induction k with
    | zero => simp [rtb_loopState]
    | succ n ih => simp [rtb_loopState, ih]; ring
  have hduty : ∀ x : ℝ, 0 ≤ calc_transfer_duty x := by
    intro x
    unfold calc_transfer_duty
    split_ifs with h1 h2 h3 h4 h5
    · norm_num
    · nlinarith
    · nlinarith
    · nlinarith
    · nlinarith
    · nlinarith
  obtain ⟨n, hn⟩ := exists_nat_ge ((savings - 0.01771 * price) / 982)
  refine ⟨n + 1, ?_⟩
  have h982 : savings - 0.01771 * price ≤ 982 * n := by
    have h := (div_le_iff₀ (by norm_num : (0 : ℝ) < 982)).1 hn
    linarith
  have hn0 : (0 : ℝ) ≤ (n : ℝ) := Nat.cast_nonneg n
  have hd := hduty (price - 1000 * n)
  simp only [rtb_guard, rtb_loopState, hfst n, not_lt, calc_bond_cost]
  nlinarith

open Classical in
/-- The deposit at which the while-loop of src/main.py lines 178-184
stops: the first component of the loop state at the first iteration count
whose guard fails. -/
def rtb_deposit (price savings : ℝ) : ℝ :=
  (rtb_loopState price (Nat.find (rtb_exists_stop price savings))).1

/-- The Rent-to-Buy Projector, src/main.py `rent_to_buy` (lines 154-192):
reads price, savings and expenses at the delay month, searches the
deposit, re-invokes `buy` with the shortened period and shifts the month
indices up by `delay`. -/
def rent_to_buy (delay : ℕ) (interest_rate growth inflation : ℝ)
    (rent_data : RentData) (buy_data : BuyData) : BuyData :=
  let price := buy_data.housevalue delay
  let savings := rent_data.savings delay
  let period := buy_data.period - delay
  let monthly_expenses := buy_data.expenses delay
  let deposit := rtb_deposit price savings
  let d := buy price deposit interest_rate period growth monthly_expenses inflation
  { d with month := fun m => d.month m + delay }

/-- `rent_in` recurrence of `buy_and_rent`: src/main.py lines 228, 238,
241-242. -/
def bar_rent_in (rent_income rent_increase : ℝ) : ℕ → ℝ
  | 0 => rent_income
  | m + 1 =>
      if (m + 1) % 12 = 0 then
        bar_rent_in rent_income rent_increase m
          + bar_rent_in rent_income rent_increase m * rent_increase
      else bar_rent_in rent_income rent_increase m

/-- `rent_out` recurrence of `buy_and_rent`: src/main.py lines 229, 239,
241, 243. -/
def bar_rent_out (rent_expense rent_increase : ℝ) : ℕ → ℝ
  | 0 => rent_expense
  | m + 1 =>
      if (m + 1) % 12 = 0 then
        bar_rent_out rent_expense rent_increase m
          + bar_rent_out rent_expense rent_increase m * rent_increase
      else bar_rent_out rent_expense rent_increase m

/-- `rent_in_accum` of `buy_and_rent`: set to `rent_income` at index 0
(line 232) and never written again inside the loop, so every later entry
keeps its `np.zeros` value 0. -/
def bar_rent_in_accum (rent_income : ℝ) : ℕ → ℝ
  | 0 => rent_income
  | _ + 1 => 0

/-- `rent_out_accum` recurrence of `buy_and_rent`: src/main.py lines 233,
240.  Line 240 adds `rent_out[month]` while it still holds the copied
value `rent_out[month-1]`, before the step-up on line 243. -/
def bar_rent_out_accum (rent_expense rent_increase : ℝ) : ℕ → ℝ
  | 0 => rent_expense
  | m + 1 =>
      bar_rent_out_accum rent_expense rent_increase m
        + bar_rent_out rent_expense rent_increase m

/-- `savings` recurrence of `buy_and_rent`: src/main.py lines 227,
246-257, with `interest[month]` from line 246 substituted in. -/
def bar_savings (buy_data : BuyData)
    (rent_expense rent_income rent_increase savings_interest monthly_investment : ℝ) :
    ℕ → ℝ
  | 0 => rent_income - rent_expense
  | m + 1 =>
      bar_savings buy_data rent_expense rent_income rent_increase savings_interest
          monthly_investment m
        + bar_savings buy_data rent_expense rent_income rent_increase savings_interest
            monthly_investment m * monthly_interest_rate savings_interest
        + monthly_investment
        - (buy_data.bond (m + 1) + buy_data.expenses (m + 1))
        + bar_rent_in rent_income rent_increase (m + 1)
        - bar_rent_out rent_expense rent_increase (m + 1)

/-- `interest` recurrence of `buy_and_rent`: src/main.py lines 231, 246. -/
def bar_interest (buy_data : BuyData)
    (rent_expense rent_income rent_increase savings_interest monthly_investment : ℝ) :
    ℕ → ℝ
  | 0 => 0
  | m + 1 =>
      bar_savings buy_data rent_expense rent_income rent_increase savings_interest
          monthly_investment m * monthly_interest_rate savings_interest

/-- `interest_accum` recurrence of `buy_and_rent`: index 0 is left at
`np.zeros`, line 247 fills the rest. -/
def bar_interest_accum (buy_data : BuyData)
    (rent_expense rent_income rent_increase savings_interest monthly_investment : ℝ) :
    ℕ → ℝ
  | 0 => 0
  | m + 1 =>
      bar_interest_accum buy_data rent_expense rent_income rent_increase savings_interest
          monthly_investment m
        + bar_interest buy_data rent_expense rent_income rent_increase savings_interest
            monthly_investment (m + 1)

/-- `nett` of `buy_and_rent`: never assigned at index 0 (stays at its
`np.zeros` value), line 259 fills the rest. -/
def bar_nett (buy_data : BuyData)
    (rent_expense rent_income rent_increase savings_interest monthly_investment : ℝ) :
    ℕ → ℝ
  | 0 => 0
  | m + 1 =>
      buy_data.nett (m + 1)
        + bar_savings buy_data rent_expense rent_income rent_increase savings_interest
            monthly_investment (m + 1)

/-- The dictionary returned by `buy_and_rent` (src/main.py lines 261-269). -/
structure BuyAndRentData where
  period : ℕ
  month : ℕ → ℕ
  savings : ℕ → ℝ
  rent_in : ℕ → ℝ
  rent_in_accum : ℕ → ℝ
  rent_out : ℕ → ℝ
  rent_out_accum : ℕ → ℝ
  interest : ℕ → ℝ
  interest_accum : ℕ → ℝ
  nett : ℕ → ℝ

/-- The Buy-and-Rent Projector, src/main.py `buy_and_rent` (lines
194-269).  Its `month` array and length are taken from `buy_data`. -/
def buy_and_rent (buy_data : BuyData)
    (rent_expense rent_income rent_increase savings_interest monthly_investment : ℝ) :
    BuyAndRentData where
  period := buy_data.period
  month := buy_data.month
  savings := bar_savings buy_data rent_expense rent_income rent_increase savings_interest
    monthly_investment
  rent_in := bar_rent_in rent_income rent_increase
  rent_in_accum := bar_rent_in_accum rent_income
  rent_out := bar_rent_out rent_expense rent_increase
  rent_out_accum := bar_rent_out_accum rent_expense rent_increase
  interest := bar_interest buy_data rent_expense rent_income rent_increase savings_interest
    monthly_investment
  interest_accum := bar_interest_accum buy_data rent_expense rent_income rent_increase
    savings_interest monthly_investment
  nett := bar_nett buy_data rent_expense rent_income rent_increase savings_interest
    monthly_investment

/-- The ten arrays of a `buy` (or `rent_to_buy`) result, as the lists the
returned dictionary holds. -/
structure BuyLists where
  month : List ℕ
  housevalue : List ℝ
  growth_accum : List ℝ
  expenses : List ℝ
  expenses_accum : List ℝ
  bond : List ℝ
  bond_interest : List ℝ
  bond_interest_accum : List ℝ
  bond_outstanding : List ℝ
  nett : List ℝ

/-- Each series of a `BuyData`, materialised over indices
`0, ..., period - 1` as the numpy arrays are. -/
def BuyData.toLists (d : BuyData) : BuyLists where
  month := (List.range d.period).map d.month
  housevalue := (List.range d.period).map d.housevalue
  growth_accum := (List.range d.period).map d.growth_accum
  expenses := (List.range d.period).map d.expenses
  expenses_accum := (List.range d.period).map d.expenses_accum
  bond := (List.range d.period).map d.bond
  bond_interest := (List.range d.period).map d.bond_interest
  bond_interest_accum := (List.range d.period).map d.bond_interest_accum
  bond_outstanding := (List.range d.period).map d.bond_outstanding
  nett := (List.range d.period).map d.nett

/-- The six arrays of a `rent` result, as the lists the returned
dictionary holds. -/
structure RentLists where
  month : List ℕ
  savings : List ℝ
  rent : List ℝ
  rent_accum : List ℝ
  interest : List ℝ
  interest_accum : List ℝ

/-- Each series of a `RentData`, materialised over indices
`0, ..., period - 1` as the numpy arrays are. -/
def RentData.toLists (d : RentData) : RentLists where
  month := (List.range d.period).map d.month
  savings := (List.range d.period).map d.savings
  rent := (List.range d.period).map d.rent
  rent_accum := (List.range d.period).map d.rent_accum
  interest := (List.range d.period).map d.interest
  interest_accum := (List.range d.period).map d.interest_accum

/-- The nine arrays of a `buy_and_rent` result, as the lists the returned
dictionary holds. -/
structure BuyAndRentLists where
  month : List ℕ
  savings : List ℝ
  rent_in : List ℝ
  rent_in_accum : List ℝ
  rent_out : List ℝ
  rent_out_accum : List ℝ
  interest : List ℝ
  interest_accum : List ℝ
  nett : List ℝ

/-- Each series of a `BuyAndRentData`, materialised over indices
`0, ..., period - 1` as the numpy arrays are. -/
def BuyAndRentData.toLists (d : BuyAndRentData) : BuyAndRentLists where
  month := (List.range d.period).map d.month
  savings := (List.range d.period).map d.savings
  rent_in := (List.range d.period).map d.rent_in
  rent_in_accum := (List.range d.period).map d.rent_in_accum
  rent_out := (List.range d.period).map d.rent_out
  rent_out_accum := (List.range d.period).map d.rent_out_accum
  interest := (List.range d.period).map d.interest
  interest_accum := (List.range d.period).map d.interest_accum
  nett := (List.range d.period).map d.nett

/-- The value `1000 * k` of the loop deposit after `k` iterations. -/
theorem rtb_loopState_fst (price : ℝ) (k : ℕ) :
    (rtb_loopState price k).1 = 1000 * k := by
  induction k with
  | zero => simp [rtb_loopState]
  | succ n ih => simp [rtb_loopState, ih]; ring

/-- Closed form of the loop state after at least one iteration: the fees
stored in the state belong to the previous iteration's deposit. -/
theorem rtb_loopState_succ (price : ℝ) (k : ℕ) :
    rtb_loopState price (k + 1)
      = (1000 * (k : ℝ) + 1000,
          calc_transfer_duty (price - 1000 * k),
          calc_bond_cost (price - 1000 * k)) := by
  simp [rtb_loopState, rtb_loopState_fst]

/-- Claim C6 (confirmed): `calc_transfer_duty` reproduces the six-bracket
schedule exactly at the breakpoints — duty(1000000) = 0,
duty(1375000) = 11250, duty(1925000) = 44250, duty(2475000) = 88250,
duty(11000000) = 1026000 — and at each breakpoint the bracket expression
from below agrees with the bracket expression from above. -/
theorem huiswerk_c6_transfer_duty_breakpoints :
    calc_transfer_duty 1000000 = 0 ∧
    calc_transfer_duty 1375000 = 11250 ∧
    calc_transfer_duty 1925000 = 44250 ∧
    calc_transfer_duty 2475000 = 88250 ∧
    calc_transfer_duty 11000000 = 1026000 ∧
    duty_bracket1 1000000 = duty_bracket2 1000000 ∧
    duty_bracket2 1375000 = duty_bracket3 1375000 ∧
    duty_bracket3 1925000 = duty_bracket4 1925000 ∧
    duty_bracket4 2475000 = duty_bracket5 2475000 ∧
    duty_bracket5 11000000 = duty_bracket6 11000000 := by
  norm_num [calc_transfer_duty, duty_bracket1, duty_bracket2, duty_bracket3,
    duty_bracket4, duty_bracket5, duty_bracket6]

/-- Claim C9 (confirmed): every series of a projector's returned bundle
has the same length — equal to the `period` parameter for `buy`, and to
the length of the input `buy_data` month series for `rent` and
`buy_and_rent`. -/
theorem huiswerk_c9_series_lengths :
    (∀ (price deposit interest_rate : ℝ) (period : ℕ)
        (growth monthly_expenses inflation : ℝ),
      (buy price deposit interest_rate period growth monthly_expenses
          inflation).toLists.month.length = period ∧
      (buy price deposit interest_rate period growth monthly_expenses
          inflation).toLists.housevalue.length = period ∧
      (buy price deposit interest_rate period growth monthly_expenses
          inflation).toLists.growth_accum.length = period ∧
      (buy price deposit interest_rate period growth monthly_expenses
          inflation).toLists.expenses.length = period ∧
      (buy price deposit interest_rate period growth monthly_expenses
          inflation).toLists.expenses_accum.length = period ∧
      (buy price deposit interest_rate period growth monthly_expenses
          inflation).toLists.bond.length = period ∧
      (buy price deposit interest_rate period growth monthly_expenses
          inflation).toLists.bond_interest.length = period ∧
      (buy price deposit interest_rate period growth monthly_expenses
          inflation).toLists.bond_interest_accum.length = period ∧
      (buy price deposit interest_rate period growth monthly_expenses
          inflation).toLists.bond_outstanding.length = period ∧
      (buy price deposit interest_rate period growth monthly_expenses
          inflation).toLists.nett.length = period) ∧
    (∀ (start_rent rent_increase savings_interest : ℝ) (buy_data : BuyData),
      (rent start_rent rent_increase savings_interest
          buy_data).toLists.month.length = buy_data.toLists.month.length ∧
      (rent start_rent rent_increase savings_interest
          buy_data).toLists.savings.length = buy_data.toLists.month.length ∧
      (rent start_rent rent_increase savings_interest
          buy_data).toLists.rent.length = buy_data.toLists.month.length ∧
      (rent start_rent rent_increase savings_interest
          buy_data).toLists.rent_accum.length = buy_data.toLists.month.length ∧
      (rent start_rent rent_increase savings_interest
          buy_data).toLists.interest.length = buy_data.toLists.month.length ∧
      (rent start_rent rent_increase savings_interest
          buy_data).toLists.interest_accum.length = buy_data.toLists.month.length) ∧
    (∀ (buy_data : BuyData)
        (rent_expense rent_income rent_increase savings_interest monthly_investment : ℝ),
      (buy_and_rent buy_data rent_expense rent_income rent_increase savings_interest
          monthly_investment).toLists.month.length = buy_data.toLists.month.length ∧
      (buy_and_rent buy_data rent_expense rent_income rent_increase savings_interest
          monthly_investment).toLists.savings.length = buy_data.toLists.month.length ∧
      (buy_and_rent buy_data rent_expense rent_income rent_increase savings_interest
          monthly_investment).toLists.rent_in.length = buy_data.toLists.month.length ∧
      (buy_and_rent buy_data rent_expense rent_income rent_increase savings_interest
          monthly_investment).toLists.rent_in_accum.length = buy_data.toLists.month.length ∧
      (buy_and_rent buy_data rent_expense rent_income rent_increase savings_interest
          monthly_investment).toLists.rent_out.length = buy_data.toLists.month.length ∧
      (buy_and_rent buy_data rent_expense rent_income rent_increase savings_interest
          monthly_investment).toLists.rent_out_accum.length = buy_data.toLists.month.length ∧
      (buy_and_rent buy_data rent_expense rent_income rent_increase savings_interest
          monthly_investment).toLists.interest.length = buy_data.toLists.month.length ∧
      (buy_and_rent buy_data rent_expense rent_income rent_increase savings_interest
          monthly_investment).toLists.interest_accum.length = buy_data.toLists.month.length ∧
      (buy_and_rent buy_data rent_expense rent_income rent_increase savings_interest
          monthly_investment).toLists.nett.length = buy_data.toLists.month.length) := by
  refine ⟨fun price deposit interest_rate period growth monthly_expenses inflation => ?_,
    fun start_rent rent_increase savings_interest buy_data => ?_,
    fun buy_data rent_expense rent_income rent_increase savings_interest
      monthly_investment => ?_⟩
  · simp [buy, BuyData.toLists]
  · simp [rent, RentData.toLists, BuyData.toLists]
  · simp [buy_and_rent, BuyAndRentData.toLists, BuyData.toLists]

/-- Claim C5 (confirmed): the affordable-deposit search loop terminates
for every real savings and price input — there is an iteration count at
which the loop guard fails. -/
theorem huiswerk_c5_deposit_loop_terminates (price savings : ℝ) :
    ∃ k : ℕ, ¬ rtb_guard savings (rtb_loopState price k) :=
  rtb_exists_stop price savings

/-- Claim C2, counterexample: in the end-to-end scenario the claimed
equation `nett[m] = housevalue[m] - bond_outstanding[m]` fails at month 0,
where the code also subtracts the month-0 expenses. -/
theorem huiswerk_c2_counterexample :
    (buy 2600000 50000 0.09 180 0.08 3000 0.06).nett 0
      ≠ (buy 2600000 50000 0.09 180 0.08 3000 0.06).housevalue 0
        - (buy 2600000 50000 0.09 180 0.08 3000 0.06).bond_outstanding 0 := by
  simp only [buy, buy_nett, buy_housevalue, buy_expenses, buy_bond_outstanding]
  norm_num

/-- Claim C2 (corrected): for every month m ≥ 1 the Buy Projector sets
`nett[m] = housevalue[m] - bond_outstanding[m]`, but at month 0 it also
subtracts the month-0 expenses:
`nett[0] = housevalue[0] - expenses[0] - bond_outstanding[0]`. -/
theorem huiswerk_c2_nett_formula (price deposit interest_rate : ℝ) (period : ℕ)
    (growth monthly_expenses inflation : ℝ) (m : ℕ) (hm : 1 ≤ m) :
    (buy price deposit interest_rate period growth monthly_expenses inflation).nett m
      = (buy price deposit interest_rate period growth monthly_expenses
          inflation).housevalue m
        - (buy price deposit interest_rate period growth monthly_expenses
            inflation).bond_outstanding m ∧
    (buy price deposit interest_rate period growth monthly_expenses inflation).nett 0
      = (buy price deposit interest_rate period growth monthly_expenses
          inflation).housevalue 0
        - (buy price deposit interest_rate period growth monthly_expenses
            inflation).expenses 0
        - (buy price deposit interest_rate period growth monthly_expenses
            inflation).bond_outstanding 0 := by
  cases m with
  | zero => omega
  | succ k => exact ⟨by simp [buy, buy_nett], by simp [buy, buy_nett]⟩

/-- Witness for claim C2 at the end-to-end scenario and month 1. -/
theorem huiswerk_c2_witness :
    (buy 2600000 50000 0.09 180 0.08 3000 0.06).nett 1
      = (buy 2600000 50000 0.09 180 0.08 3000 0.06).housevalue 1
        - (buy 2600000 50000 0.09 180 0.08 3000 0.06).bond_outstanding 1 ∧
    (buy 2600000 50000 0.09 180 0.08 3000 0.06).nett 0
      = (buy 2600000 50000 0.09 180 0.08 3000 0.06).housevalue 0
        - (buy 2600000 50000 0.09 180 0.08 3000 0.06).expenses 0
        - (buy 2600000 50000 0.09 180 0.08 3000 0.06).bond_outstanding 0 :=
  huiswerk_c2_nett_formula 2600000 50000 0.09 180 0.08 3000 0.06 1 (by norm_num)

/-- Claim C4, counterexample: `buy_and_rent` never assigns `nett[0]`, so
it stays at its `np.zeros` value 0 instead of the claimed
`buy_data.nett[0] + savings[0]` (which here is 47000 + (-8455)). -/
theorem huiswerk_c4_counterexample :
    (buy_and_rent (buy 2600000 50000 0.09 180 0.08 3000 0.06)
        10455 2000 0.1 0.035 5000).nett 0
      ≠ (buy 2600000 50000 0.09 180 0.08 3000 0.06).nett 0
        + (buy_and_rent (buy 2600000 50000 0.09 180 0.08 3000 0.06)
            10455 2000 0.1 0.035 5000).savings 0 := by
  simp only [buy_and_rent, buy, bar_nett, bar_savings, buy_nett, buy_housevalue,
    buy_expenses, buy_bond_outstanding]
  norm_num

/-- Claim C4 (corrected): in the Buy-and-Rent Projector the combined net
worth satisfies `nett[m] = buy_data.nett[m] + savings[m]` for every month
m ≥ 1, but `nett[0]` is never assigned and stays 0. -/
theorem huiswerk_c4_nett_formula (buy_data : BuyData)
    (rent_expense rent_income rent_increase savings_interest monthly_investment : ℝ)
    (m : ℕ) (hm : 1 ≤ m) :
    (buy_and_rent buy_data rent_expense rent_income rent_increase savings_interest
        monthly_investment).nett m
      = buy_data.nett m
        + (buy_and_rent buy_data rent_expense rent_income rent_increase savings_interest
            monthly_investment).savings m ∧
    (buy_and_rent buy_data rent_expense rent_income rent_increase savings_interest
        monthly_investment).nett 0 = 0 := by
  cases m with
  | zero => omega
  | succ k => exact ⟨by simp [buy_and_rent, bar_nett], by simp [buy_and_rent, bar_nett]⟩

/-- Witness for claim C4 at the end-to-end scenario and month 1. -/
theorem huiswerk_c4_witness :
    (buy_and_rent (buy 2600000 50000 0.09 180 0.08 3000 0.06)
        10455 2000 0.1 0.035 5000).nett 1
      = (buy 2600000 50000 0.09 180 0.08 3000 0.06).nett 1
        + (buy_and_rent (buy 2600000 50000 0.09 180 0.08 3000 0.06)
            10455 2000 0.1 0.035 5000).savings 1 ∧
    (buy_and_rent (buy 2600000 50000 0.09 180 0.08 3000 0.06)
        10455 2000 0.1 0.035 5000).nett 0 = 0 :=
  huiswerk_c4_nett_formula (buy 2600000 50000 0.09 180 0.08 3000 0.06)
    10455 2000 0.1 0.035 5000 1 (by norm_num)

/-- Claim C7 (confirmed): for every month m ≥ 1, the Rent Projector's
rent series carries over unchanged when m is not a multiple of 12, and at
every 12-month boundary it steps up by the yearly increase factor applied
to the current value, `rent[m] = rent[m-1] * (1 + yearlyIncrease)`; in
particular `rent[12] = rent[11] * (1 + yearlyIncrease)`. -/
theorem huiswerk_c7_rent_step (start_rent rent_increase : ℝ) (m : ℕ)
    (h1 : 1 ≤ m) :
    (m % 12 ≠ 0 →
      rent_rent start_rent rent_increase m = rent_rent start_rent rent_increase (m - 1)) ∧
    (m % 12 = 0 →
      rent_rent start_rent rent_increase m
        = rent_rent start_rent rent_increase (m - 1) * (1 + rent_increase)) ∧
    rent_rent start_rent rent_increase 12
      = rent_rent start_rent rent_increase 11 * (1 + rent_increase) := by
  have hstep : ∀ k : ℕ, (k + 1) % 12 = 0 →
      rent_rent start_rent rent_increase (k + 1)
        = rent_rent start_rent rent_increase k * (1 + rent_increase) := by
    intro k hk
    simp only [rent_rent]
    rw [if_pos hk]
    ring
  have h12 : rent_rent start_rent rent_increase 12
      = rent_rent start_rent rent_increase 11 * (1 + rent_increase) :=
    hstep 11 (by norm_num)
  cases m with
  | zero => omega
  | succ k =>
    refine ⟨?_, ?_, h12⟩
    · intro h2
      simp only [rent_rent, Nat.add_sub_cancel]
      rw [if_neg h2]
    · intro h2
      rw [Nat.add_sub_cancel]
      exact hstep k h2

/-- Witness for claim C7 at start rent 10455, yearly increase 0.1 and the
step-up month 24. -/
theorem huiswerk_c7_witness :
    (24 % 12 ≠ 0 → rent_rent 10455 0.1 24 = rent_rent 10455 0.1 23) ∧
    (24 % 12 = 0 → rent_rent 10455 0.1 24 = rent_rent 10455 0.1 23 * (1 + 0.1)) ∧
    rent_rent 10455 0.1 12 = rent_rent 10455 0.1 11 * (1 + 0.1) :=
  huiswerk_c7_rent_step 10455 0.1 24 (by norm_num)

/-- Claim C10 (confirmed): at every annual step-up month m (12 ≤ m,
m % 12 = 0) the Rent Projector's accumulator adds the pre-increase rent,
`rent_accum[m] = rent_accum[m-1] + rent[m-1]`, while the rent itself
steps up, `rent[m] = rent[m-1] + rent[m-1]*rent_increase`, and the
savings are debited by that increased `rent[m]`. -/
theorem huiswerk_c10_accum_pre_increase (start_rent rent_increase savings_interest : ℝ)
    (buy_data : BuyData) (m : ℕ) (h1 : 12 ≤ m) (h2 : m % 12 = 0) :
    rent_rent_accum start_rent rent_increase m
      = rent_rent_accum start_rent rent_increase (m - 1)
        + rent_rent start_rent rent_increase (m - 1) ∧
    rent_rent start_rent rent_increase m
      = rent_rent start_rent rent_increase (m - 1)
        + rent_rent start_rent rent_increase (m - 1) * rent_increase ∧
    rent_savings start_rent rent_increase savings_interest buy_data m
      = rent_savings start_rent rent_increase savings_interest buy_data (m - 1)
        + rent_interest start_rent rent_increase savings_interest buy_data m
        + (buy_data.bond m + buy_data.expenses m)
        - rent_rent start_rent rent_increase m := by
  obtain ⟨k, rfl⟩ : ∃ k, m = k + 1 := ⟨m - 1, by omega⟩
  refine ⟨by simp [rent_rent_accum], ?_, ?_⟩
  · simp only [rent_rent, Nat.add_sub_cancel]
    rw [if_pos h2]
  · simp only [rent_savings, rent_interest, Nat.add_sub_cancel]

/-- Witness for claim C10 at the end-to-end scenario and step-up month 12. -/
theorem huiswerk_c10_witness :
    rent_rent_accum 10455 0.1 12
      = rent_rent_accum 10455 0.1 11 + rent_rent 10455 0.1 11 ∧
    rent_rent 10455 0.1 12
      = rent_rent 10455 0.1 11 + rent_rent 10455 0.1 11 * 0.1 ∧
    rent_savings 10455 0.1 0.035 (buy 2600000 50000 0.09 180 0.08 3000 0.06) 12
      = rent_savings 10455 0.1 0.035 (buy 2600000 50000 0.09 180 0.08 3000 0.06) 11
        + rent_interest 10455 0.1 0.035 (buy 2600000 50000 0.09 180 0.08 3000 0.06) 12
        + ((buy 2600000 50000 0.09 180 0.08 3000 0.06).bond 12
            + (buy 2600000 50000 0.09 180 0.08 3000 0.06).expenses 12)
        - rent_rent 10455 0.1 12 :=
  huiswerk_c10_accum_pre_increase 10455 0.1 0.035
    (buy 2600000 50000 0.09 180 0.08 3000 0.06) 12 (by norm_num) (by norm_num)

/-- Claim C1, counterexample: at yearly rate 0.09 the conversion the code
applies, `(1+0.09/12)**(12/12)-1 = 0.0075`, differs from the
monthly-compounded conversion `(1+0.09)^(1/12)-1` the claim states. -/
theorem huiswerk_c1_counterexample :
    monthly_interest_rate 0.09 ≠ (1 + 0.09) ^ ((1 : ℝ) / 12) - 1 := by
  have hval : monthly_interest_rate 0.09 = 0.0075 := by
    rw [monthly_interest_rate, show ((12 : ℝ) / 12) = 1 by norm_num, Real.rpow_one]
    norm_num
  rw [hval]
  intro h
  have h2 : ((1 : ℝ) + 0.09) ^ ((1 : ℝ) / 12) = 1.0075 := by linarith
  have h3 : (((1 : ℝ) + 0.09) ^ ((1 : ℝ) / 12)) ^ (12 : ℕ) = (1 : ℝ) + 0.09 := by
    rw [← Real.rpow_natCast (((1 : ℝ) + 0.09) ^ ((1 : ℝ) / 12)) 12,
      ← Real.rpow_mul (by norm_num : (0 : ℝ) ≤ 1 + 0.09),
      show (1 : ℝ) / 12 * ((12 : ℕ) : ℝ) = 1 by norm_num]
    exact Real.rpow_one _
  rw [h2] at h3
  norm_num at h3

/-- Claim C1 (corrected): the code turns every yearly interest rate into
a monthly one by `(1+rate/12)**(12/12)-1`, which equals `rate/12` (simple
division, not monthly compounding); consequently in the end-to-end
scenario `bond[1]` is the amortized payment for principal 2,550,000 at
monthly rate `0.09/12` over 180 periods. -/
theorem huiswerk_c1_rate_conversion :
    (∀ rate : ℝ, monthly_interest_rate rate = rate / 12) ∧
    (buy 2600000 50000 0.09 180 0.08 3000 0.06).bond 1
      = calc_bond_payment 2550000 (0.09 / 12) 180 := by
  have hr : ∀ rate : ℝ, monthly_interest_rate rate = rate / 12 := by
    intro rate
    rw [monthly_interest_rate, show ((12 : ℝ) / 12) = 1 by norm_num, Real.rpow_one]
    ring
  refine ⟨hr, ?_⟩
  show buy_bond 2600000 50000 0.09 180 1 = calc_bond_payment 2550000 (0.09 / 12) 180
  rw [show (1 : ℕ) = 0 + 1 from rfl]
  simp only [buy_bond]
  rw [hr]
  norm_num

/-- Claim C8 (confirmed): for every delay below the length of the input
`buy_data`, the Rent-to-Buy output has `month[0] = delay`, every month
index offset by `delay`, and all ten series of length
`buy_data.period - delay`. -/
theorem huiswerk_c8_delay_shift (delay : ℕ) (interest_rate growth inflation : ℝ)
    (rent_data : RentData) (buy_data : BuyData) (h : delay < buy_data.period) :
    (rent_to_buy delay interest_rate growth inflation rent_data buy_data).month 0
      = delay ∧
    (∀ i, (rent_to_buy delay interest_rate growth inflation rent_data buy_data).month i
      = i + delay) ∧
    (rent_to_buy delay interest_rate growth inflation rent_data
        buy_data).toLists.month.length = buy_data.period - delay ∧
    (rent_to_buy delay interest_rate growth inflation rent_data
        buy_data).toLists.housevalue.length = buy_data.period - delay ∧
    (rent_to_buy delay interest_rate growth inflation rent_data
        buy_data).toLists.growth_accum.length = buy_data.period - delay ∧
    (rent_to_buy delay interest_rate growth inflation rent_data
        buy_data).toLists.expenses.length = buy_data.period - delay ∧
    (rent_to_buy delay interest_rate growth inflation rent_data
        buy_data).toLists.expenses_accum.length = buy_data.period - delay ∧
    (rent_to_buy delay interest_rate growth inflation rent_data
        buy_data).toLists.bond.length = buy_data.period - delay ∧
    (rent_to_buy delay interest_rate growth inflation rent_data
        buy_data).toLists.bond_interest.length = buy_data.period - delay ∧
    (rent_to_buy delay interest_rate growth inflation rent_data
        buy_data).toLists.bond_interest_accum.length = buy_data.period - delay ∧
    (rent_to_buy delay interest_rate growth inflation rent_data
        buy_data).toLists.bond_outstanding.length = buy_data.period - delay ∧
    (rent_to_buy delay interest_rate growth inflation rent_data
        buy_data).toLists.nett.length = buy_data.period - delay := by
  refine ⟨?_, fun i => ?_, ?_, ?_, ?_, ?_, ?_, ?_, ?_, ?_, ?_, ?_⟩ <;>
    simp [rent_to_buy, buy, BuyData.toLists]

/-- Witness for claim C8 at the end-to-end scenario with delay 84. -/
theorem huiswerk_c8_witness :
    (rent_to_buy 84 0.09 0.08 0.06
        (rent 10455 0.1 0.035 (buy 2600000 50000 0.09 180 0.08 3000 0.06))
        (buy 2600000 50000 0.09 180 0.08 3000 0.06)).month 0 = 84 ∧
    (∀ i, (rent_to_buy 84 0.09 0.08 0.06
        (rent 10455 0.1 0.035 (buy 2600000 50000 0.09 180 0.08 3000 0.06))
        (buy 2600000 50000 0.09 180 0.08 3000 0.06)).month i = i + 84) ∧
    (rent_to_buy 84 0.09 0.08 0.06
        (rent 10455 0.1 0.035 (buy 2600000 50000 0.09 180 0.08 3000 0.06))
        (buy 2600000 50000 0.09 180 0.08 3000 0.06)).toLists.month.length = 96 ∧
    (rent_to_buy 84 0.09 0.08 0.06
        (rent 10455 0.1 0.035 (buy 2600000 50000 0.09 180 0.08 3000 0.06))
        (buy 2600000 50000 0.09 180 0.08 3000 0.06)).toLists.housevalue.length = 96 ∧
    (rent_to_buy 84 0.09 0.08 0.06
        (rent 10455 0.1 0.035 (buy 2600000 50000 0.09 180 0.08 3000 0.06))
        (buy 2600000 50000 0.09 180 0.08 3000 0.06)).toLists.growth_accum.length = 96 ∧
    (rent_to_buy 84 0.09 0.08 0.06
        (rent 10455 0.1 0.035 (buy 2600000 50000 0.09 180 0.08 3000 0.06))
        (buy 2600000 50000 0.09 180 0.08 3000 0.06)).toLists.expenses.length = 96 ∧
    (rent_to_buy 84 0.09 0.08 0.06
        (rent 10455 0.1 0.035 (buy 2600000 50000 0.09 180 0.08 3000 0.06))
        (buy 2600000 50000 0.09 180 0.08 3000 0.06)).toLists.expenses_accum.length = 96 ∧
    (rent_to_buy 84 0.09 0.08 0.06
        (rent 10455 0.1 0.035 (buy 2600000 50000 0.09 180 0.08 3000 0.06))
        (buy 2600000 50000 0.09 180 0.08 3000 0.06)).toLists.bond.length = 96 ∧
    (rent_to_buy 84 0.09 0.08 0.06
        (rent 10455 0.1 0.035 (buy 2600000 50000 0.09 180 0.08 3000 0.06))
        (buy 2600000 50000 0.09 180 0.08 3000 0.06)).toLists.bond_interest.length = 96 ∧
    (rent_to_buy 84 0.09 0.08 0.06
        (rent 10455 0.1 0.035 (buy 2600000 50000 0.09 180 0.08 3000 0.06))
        (buy 2600000 50000 0.09 180 0.08 3000 0.06)).toLists.bond_interest_accum.length
      = 96 ∧
    (rent_to_buy 84 0.09 0.08 0.06
        (rent 10455 0.1 0.035 (buy 2600000 50000 0.09 180 0.08 3000 0.06))
        (buy 2600000 50000 0.09 180 0.08 3000 0.06)).toLists.bond_outstanding.length
      = 96 ∧
    (rent_to_buy 84 0.09 0.08 0.06
        (rent 10455 0.1 0.035 (buy 2600000 50000 0.09 180 0.08 3000 0.06))
        (buy 2600000 50000 0.09 180 0.08 3000 0.06)).toLists.nett.length = 96 :=
  huiswerk_c8_delay_shift 84 0.09 0.08 0.06
    (rent 10455 0.1 0.035 (buy 2600000 50000 0.09 180 0.08 3000 0.06))
    (buy 2600000 50000 0.09 180 0.08 3000 0.06) (by norm_num [buy])

open Classical in
/-- The deposit returned by the search loop, given the iteration count at
which the guard first fails. -/
theorem rtb_deposit_eq (price savings : ℝ) (k : ℕ)
    (h1 : ¬ rtb_guard savings (rtb_loopState price k))
    (h2 : ∀ j < k, rtb_guard savings (rtb_loopState price j)) :
    rtb_deposit price savings = 1000 * k := by
  have hfind : Nat.find (rtb_exists_stop price savings) = k := by
    rw [Nat.find_eq_iff]
    exact ⟨h1, fun j hj => not_not_intro (h2 j hj)⟩
  rw [rtb_deposit, hfind, rtb_loopState_fst]

/-- Claim C3, counterexample: with price 2,000,000 and savings 1 at the
delay month (reached by `buy` at price 2,000,000 and `rent` at start rent
94,868, delay 0), the loop stops at deposit 1000 although deposit 0
already satisfies `0 + transferDuty(price) + registrationCost(price) >=
savings`, so the result is not the smallest such multiple of 1000. -/
theorem huiswerk_c3_counterexample :
    rtb_deposit ((buy 2000000 0 0.09 180 0.08 3000 0.06).housevalue 0)
        ((rent 94868 0.1 0.035 (buy 2000000 0 0.09 180 0.08 3000 0.06)).savings 0)
      = 1000 ∧
    ¬ IsLeast
        {d : ℝ | ∃ n : ℕ, d = 1000 * n ∧
          (rent 94868 0.1 0.035 (buy 2000000 0 0.09 180 0.08 3000 0.06)).savings 0
            ≤ d + calc_transfer_duty
                ((buy 2000000 0 0.09 180 0.08 3000 0.06).housevalue 0 - d)
              + calc_bond_cost
                ((buy 2000000 0 0.09 180 0.08 3000 0.06).housevalue 0 - d)}
        (rtb_deposit ((buy 2000000 0 0.09 180 0.08 3000 0.06).housevalue 0)
          ((rent 94868 0.1 0.035 (buy 2000000 0 0.09 180 0.08 3000 0.06)).savings 0)) := by
  have hduty : calc_transfer_duty 2000000 = 50250 := by
    norm_num [calc_transfer_duty]
  have hcost : calc_bond_cost 2000000 = 41619 := by
    norm_num [calc_bond_cost]
  have hp : (buy 2000000 0 0.09 180 0.08 3000 0.06).housevalue 0 = 2000000 := by
    simp [buy, buy_housevalue]
  have hs : (rent 94868 0.1 0.035 (buy 2000000 0 0.09 180 0.08 3000 0.06)).savings 0
      = 1 := by
    simp only [rent, rent_savings, buy, buy_expenses, buy_bond]
    norm_num [hduty, hcost]
  have hdep : rtb_deposit 2000000 1 = 1000 := by
    have h1 : ¬ rtb_guard 1 (rtb_loopState 2000000 1) := by
      rw [show (1 : ℕ) = 0 + 1 from rfl, rtb_loopState_succ]
      simp only [rtb_guard]
      push_cast
      norm_num [hduty, hcost]
    have h2 : ∀ j < 1, rtb_guard 1 (rtb_loopState 2000000 j) := by
      intro j hj
      interval_cases j
      simp [rtb_guard, rtb_loopState]
    have := rtb_deposit_eq 2000000 1 1 h1 h2
    simpa using this
  rw [hp, hs, hdep]
  refine ⟨rfl, ?_⟩
  rintro ⟨hmem, hlb⟩
  have h0 : (0 : ℝ) ∈ {d : ℝ | ∃ n : ℕ, d = 1000 * n ∧
      (1 : ℝ) ≤ d + calc_transfer_duty (2000000 - d) + calc_bond_cost (2000000 - d)} := by
    refine ⟨0, by norm_num, ?_⟩
    norm_num [hduty, hcost]
  have hle := hlb h0
  linarith

open Classical in
/-- Claim C3 (corrected): when savings > 0, the loop stops at the
smallest positive multiple 1000k of 1000 whose guard fails with the fees
evaluated at the previous iteration's deposit 1000(k-1):
`savings <= 1000k + transferDuty(price - (1000k - 1000)) +
registrationCost(price - (1000k - 1000))`, and for every smaller positive
multiple that lagged sum is still below savings.  Deposit 0 is never
selected even when it already satisfies the claimed condition. -/
theorem huiswerk_c3_deposit_characterisation (price savings : ℝ) (h : 0 < savings) :
    ∃ k : ℕ, 1 ≤ k ∧ rtb_deposit price savings = 1000 * k ∧
      savings ≤ 1000 * k + calc_transfer_duty (price - (1000 * k - 1000))
        + calc_bond_cost (price - (1000 * k - 1000)) ∧
      ∀ j : ℕ, 1 ≤ j → j < k →
        1000 * j + calc_transfer_duty (price - (1000 * j - 1000))
          + calc_bond_cost (price - (1000 * j - 1000)) < savings := by
  have hstop : ¬ rtb_guard savings
      (rtb_loopState price (Nat.find (rtb_exists_stop price savings))) :=
    Nat.find_spec (rtb_exists_stop price savings)
  have hmin : ∀ j < Nat.find (rtb_exists_stop price savings),
      rtb_guard savings (rtb_loopState price j) := fun j hj =>
    not_not.mp (Nat.find_min (rtb_exists_stop price savings) hj)
  have hK1 : 1 ≤ Nat.find (rtb_exists_stop price savings) := by
    rcases Nat.eq_zero_or_pos (Nat.find (rtb_exists_stop price savings)) with h0 | h1
    · exfalso
      apply hstop
      rw [h0]
      simpa [rtb_guard, rtb_loopState] using h
    · exact h1
  obtain ⟨n, hn⟩ : ∃ n, Nat.find (rtb_exists_stop price savings) = n + 1 :=
    ⟨Nat.find (rtb_exists_stop price savings) - 1, by omega⟩
  refine ⟨Nat.find (rtb_exists_stop price savings), hK1, ?_, ?_, ?_⟩
  · rw [rtb_deposit, rtb_loopState_fst]
  · rw [hn] at hstop
    rw [rtb_loopState_succ] at hstop
    simp only [rtb_guard, not_lt] at hstop
    rw [hn]
    push_cast
    have harg : price - (1000 * ((n : ℝ) + 1) - 1000) = price - 1000 * n := by ring
    rw [harg]
    linarith
  · intro j hj1 hjK
    have hg := hmin j hjK
    obtain ⟨i, rfl⟩ : ∃ i, j = i + 1 := ⟨j - 1, by omega⟩
    rw [rtb_loopState_succ] at hg
    simp only [rtb_guard] at hg
    push_cast
    have harg : price - (1000 * ((i : ℝ) + 1) - 1000) = price - 1000 * i := by ring
    rw [harg]
    linarith

/-- Witness for claim C3 at price 2,000,000 and savings 1. -/
theorem huiswerk_c3_witness :
    ∃ k : ℕ, 1 ≤ k ∧ rtb_deposit 2000000 1 = 1000 * k ∧
      (1 : ℝ) ≤ 1000 * k + calc_transfer_duty (2000000 - (1000 * k - 1000))
        + calc_bond_cost (2000000 - (1000 * k - 1000)) ∧
      ∀ j : ℕ, 1 ≤ j → j < k →
        1000 * j + calc_transfer_duty (2000000 - (1000 * j - 1000))
          + calc_bond_cost (2000000 - (1000 * j - 1000)) < 1 :=
  huiswerk_c3_deposit_characterisation 2000000 1 (by norm_num)
